import Mathlib

/-!
Verification of the spotify-data-pipeline repository.

The pipeline is embedded shallowly:
* Python JSON-like values (the Spotify playlist document) become the
  inductive `JVal`; dictionary subscription `d[k]` becomes `JVal.get`,
  which yields `Option.none` exactly when Python would raise
  (`KeyError` / `TypeError` on a non-dict, `IndexError` on a list).
* The extraction methods of `DataExtract`
  (src/main/extractors/spotify_extractor.py) wrap the whole item loop in
  one `try/except` whose handler logs and falls off the end, returning
  Python `None`; they are embedded as functions into
  `Option (List _)`, where `Option.none` is that exceptional `None`
  return and `some l` the normal list return.
* The transformation methods of `TransformData`
  (src/main/transfomers/spotify_transformer.py) become functions from
  `Option (List _)` (the extractor output, possibly `None`) to a list of
  rows; the pandas DataFrame is modelled as that row list together with
  its column-name list.
* The loaders (src/main/loaders/local_loader.py, s3_loader.py) become
  state-passing functions over an explicit filesystem / object-store
  value, returning the unchanged state plus an error when the
  `ValueError` precondition fires.
* The singleton connector classes (src/main/connectors/*.py) become a
  transition system over the class-level `_instance` slot plus the
  multiset of constructed live instances.
-/

/-- A Python/JSON value as it appears in a Spotify playlist response:
strings, integers, `None`, lists and string-keyed dictionaries. -/
inductive JVal where
  | jnull : JVal
  | jstr : String → JVal
  | jint : Int → JVal
  | jlist : List JVal → JVal
  | jdict : List (String × JVal) → JVal

mutual

/-- Boolean equality on `JVal` (Python `==` on these value shapes). -/
def beqJ : JVal → JVal → Bool
  | .jnull, .jnull => true
  | .jstr a, .jstr b => a == b
  | .jint a, .jint b => a == b
  | .jlist a, .jlist b => beqJList a b
  | .jdict a, .jdict b => beqJKV a b
  | _, _ => false

/-- Elementwise `beqJ` on lists of values. -/
def beqJList : List JVal → List JVal → Bool
  | [], [] => true
  | x :: xs, y :: ys => beqJ x y && beqJList xs ys
  | _, _ => false

/-- Elementwise equality on key-value lists. -/
def beqJKV : List (String × JVal) → List (String × JVal) → Bool
  | [], [] => true
  | (k, v) :: xs, (k', v') :: ys => k == k' && beqJ v v' && beqJKV xs ys
  | _, _ => false

end

mutual

theorem beqJ_iff : ∀ (a b : JVal), beqJ a b = true ↔ a = b
  | .jnull, b => by cases b <;> simp [beqJ]
  | .jstr _, b => by cases b <;> simp [beqJ]
  | .jint _, b => by cases b <;> simp [beqJ]
  | .jlist l, b => by
      cases b <;> simp [beqJ]
      exact beqJList_iff l _
  | .jdict d, b => by
      cases b <;> simp [beqJ]
      exact beqJKV_iff d _

theorem beqJList_iff : ∀ (a b : List JVal), beqJList a b = true ↔ a = b
  | [], b => by cases b <;> simp [beqJList]
  | x :: xs, b => by
      cases b with
      | nil => simp [beqJList]
      | cons y ys =>
        simp only [beqJList, Bool.and_eq_true, List.cons.injEq]
        exact and_congr (beqJ_iff x y) (beqJList_iff xs ys)

theorem beqJKV_iff : ∀ (a b : List (String × JVal)),
    beqJKV a b = true ↔ a = b
  | [], b => by cases b <;> simp [beqJKV]
  | (k, v) :: xs, b => by
      cases b with
      | nil => simp [beqJKV]
      | cons y ys =>
        obtain ⟨k', v'⟩ := y
        simp only [beqJKV, Bool.and_eq_true, List.cons.injEq, Prod.mk.injEq,
          beq_iff_eq]
        rw [beqJ_iff v v', beqJKV_iff xs ys, and_assoc]

end

instance : DecidableEq JVal := fun a b =>
  decidable_of_iff (beqJ a b = true) (beqJ_iff a b)

/-- Lookup of a key in an association list, first match wins
(a Python dict has unique keys, so this is exact). -/
def lookupKV : List (String × JVal) → String → Option JVal
  | [], _ => Option.none
  | (k', v) :: rest, k => if k' = k then some v else lookupKV rest k

/-- Python `d[k]`: `some v` on a dict that has the key, `Option.none`
when Python would raise (`KeyError`, or `TypeError` on a non-dict). -/
def JVal.get (v : JVal) (k : String) : Option JVal :=
  match v with
  | .jdict kvs => lookupKV kvs k
  | _ => Option.none

/-- Python `l[i]` on a JSON value: `some` on a list that is long enough,
`Option.none` when Python would raise (`IndexError`, or `TypeError` on a
non-list). -/
def JVal.index (v : JVal) (i : Nat) : Option JVal :=
  match v with
  | .jlist l => l.get? i
  | _ => Option.none

/-- The album dict built by `DataExtract.extract_album_data`
(spotify_extractor.py lines 57-63); field order is the dict literal's
key insertion order. -/
structure AlbumRec where
  id : JVal
  name : JVal
  release_date : JVal
  total_tracks : JVal
  url : JVal
deriving DecidableEq

/-- The artist dict built by `DataExtract.extract_artist_data`
(spotify_extractor.py lines 101-105). -/
structure ArtistRec where
  id : JVal
  name : JVal
  url : JVal
deriving DecidableEq

/-- The song dict built by `DataExtract.extract_song_data`
(spotify_extractor.py lines 154-163); note the last key is spelled
`artist_ids` in the source. -/
structure SongRec where
  id : JVal
  name : JVal
  added_at : JVal
  duration_ms : JVal
  popularity : JVal
  url : JVal
  album_id : JVal
  artist_ids : JVal
deriving DecidableEq

/-- Python `track is None`: the explicit-absence check every extraction
loop performs on `data['track']`. -/
def isNone : JVal → Bool
  | .jnull => true
  | _ => false

/-- Body of one iteration of the `extract_album_data` loop
(spotify_extractor.py lines 48-64): outer `Option.none` models an
exception escaping to the method-level `except`; `some Option.none`
models the `continue` on a `None` track; `some (some r)` appends `r`. -/
def albumItem (data : JVal) : Option (Option AlbumRec) := do
  let track ← data.get "track"
  if isNone track then
    return Option.none
  else
    let album ← track.get "album"
    let album_id ← album.get "id"
    let album_name ← album.get "name"
    let album_release_date ← album.get "release_date"
    let album_total_tracks ← album.get "total_tracks"
    let ext ← album.get "external_urls"
    let album_url ← ext.get "spotify"
    return some ⟨album_id, album_name, album_release_date, album_total_tracks, album_url⟩

/-- The item loop shared by `extract_album_data` and `extract_song_data`:
processes items in order, appending the produced record; any exception
(outer `Option.none` from `itemF`) aborts the whole batch, which is the
method-level `try/except` returning Python `None`. -/
def extractLoop (itemF : JVal → Option (Option α)) : List JVal → Option (List α)
  | [] => some []
  | d :: rest => do
    let r ← itemF d
    let rs ← extractLoop itemF rest
    match r with
    | some a => return a :: rs
    | Option.none => return rs

/-- `DataExtract.extract_album_data` (spotify_extractor.py lines 46-68):
iterates `playlist_data['items']`; the whole loop sits in one
`try/except` whose handler only logs, so any failure returns `None`
(here `Option.none`) for the entire batch. -/
def extract_album_data (playlist_data : JVal) : Option (List AlbumRec) :=
  match playlist_data.get "items" with
  | some (JVal.jlist items) => extractLoop albumItem items
  | _ => Option.none

/-- One artist dict of the inner loop of `extract_artist_data`
(spotify_extractor.py lines 97-106). -/
def artistOne (artist : JVal) : Option ArtistRec := do
  let artist_id ← artist.get "id"
  let artist_name ← artist.get "name"
  let ext ← artist.get "external_urls"
  let artist_url ← ext.get "spotify"
  return ⟨artist_id, artist_name, artist_url⟩

/-- The inner `for artist in data['track']['artists']` loop. -/
def artistsLoop : List JVal → Option (List ArtistRec)
  | [] => some []
  | a :: rest => do
    let r ← artistOne a
    let rs ← artistsLoop rest
    return r :: rs

/-- Body of one iteration of the `extract_artist_data` outer loop
(spotify_extractor.py lines 93-106): yields the item's list of artist
records, `some Option.none` on a `None` track skip, outer `Option.none`
on an exception. -/
def artistItem (data : JVal) : Option (Option (List ArtistRec)) := do
  let track ← data.get "track"
  if isNone track then
    return Option.none
  else
    match track.get "artists" with
    | some (JVal.jlist l) => do
        let rs ← artistsLoop l
        return some rs
    | _ => Option.none

/-- The outer item loop of `extract_artist_data`: appends each item's
artist records in order; an exception aborts the batch. -/
def artistBatch : List JVal → Option (List ArtistRec)
  | [] => some []
  | d :: rest => do
    let r ← artistItem d
    let rs ← artistBatch rest
    match r with
    | some l => return l ++ rs
    | Option.none => return rs

/-- `DataExtract.extract_artist_data` (spotify_extractor.py lines
90-111): same batch-level `try/except` returning `None` on any
exception. -/
def extract_artist_data (playlist_data : JVal) : Option (List ArtistRec) :=
  match playlist_data.get "items" with
  | some (JVal.jlist items) => artistBatch items
  | _ => Option.none

/-- The first seven field accesses of the `extract_song_data` loop body
(spotify_extractor.py lines 145-150), in source order: track id, name,
duration, popularity, external url, then the item-level `added_at`. -/
def songFields (track data : JVal) :
    Option (JVal × JVal × JVal × JVal × JVal × JVal) := do
  let song_id ← track.get "id"
  let song_name ← track.get "name"
  let song_duration_ms ← track.get "duration_ms"
  let song_popularity ← track.get "popularity"
  let ext ← track.get "external_urls"
  let song_url ← ext.get "spotify"
  let song_added_at ← data.get "added_at"
  return (song_id, song_name, song_duration_ms, song_popularity, song_url, song_added_at)

/-- The album-side accesses of the `extract_song_data` loop body
(spotify_extractor.py lines 151-152), in source order:
`data['track']['album']['id']` then
`data['track']['album']['artists'][0]['id']`; the latter raises
`IndexError` on an empty artist list, rendered as `Option.none`. -/
def songAlbumFields (track : JVal) : Option (JVal × JVal) := do
  let album ← track.get "album"
  let album_id ← album.get "id"
  let artists ← album.get "artists"
  let firstArtist ← artists.index 0
  let artist_ids ← firstArtist.get "id"
  return (album_id, artist_ids)

/-- Body of one iteration of the `extract_song_data` loop
(spotify_extractor.py lines 141-164): the field accesses run in source
order (`songFields` then `songAlbumFields`), any one failing aborts to
the method-level handler (outer `Option.none`). -/
def songItem (data : JVal) : Option (Option SongRec) := do
  let track ← data.get "track"
  if isNone track then
    return Option.none
  else
    let f ← songFields track data
    let a ← songAlbumFields track
    let (song_id, song_name, song_duration_ms, song_popularity, song_url, song_added_at) := f
    return some ⟨song_id, song_name, song_added_at, song_duration_ms,
                 song_popularity, song_url, a.1, a.2⟩

/-- `DataExtract.extract_song_data` (spotify_extractor.py lines
113-169). The Python method takes one required positional parameter
`playlist_data` that the body never reads (it uses
`self.playlist_data`); the unused second argument mirrors that. -/
def extract_song_data (self_playlist_data : JVal) (_playlist_data : JVal) :
    Option (List SongRec) :=
  match self_playlist_data.get "items" with
  | some (JVal.jlist items) => extractLoop songItem items
  | _ => Option.none

/-- A playlist document whose `items` key holds the given item list. -/
def mkDoc (items : List JVal) : JVal :=
  JVal.jdict [("items", JVal.jlist items)]

/-! ## Transformer (src/main/transfomers/spotify_transformer.py)

`pd.DataFrame` over a list of homogeneous dicts is modelled as the list
of rows; `drop_duplicates(subset=['id'])` is `dedupByKey` below (pandas
keeps the first occurrence of each key by default and preserves row
order); `pd.to_datetime(col, errors='coerce')` is `to_datetime_coerce`
mapped over the designated column. -/

/-- Does every character of `s` look like part of a date/time literal?
Used only to model which strings pandas can parse at all. -/
def dateChars (s : String) : Bool :=
  s.toList.all fun c => c.isDigit || c = '-' || c = ':' ||
    c = 'T' || c = 'Z' || c = ' ' || c = '.'

/-- Models `pandas.to_datetime(·, errors=coerce)` on one cell of the
library collaborator pandas: a parseable date/time string maps to its
canonical timestamp (kept as the string itself here), anything
unparseable maps to the missing marker `NaT` (`jnull`). The claims under
verification never depend on which strings parse, only on the coercion
being applied cellwise after deduplication. -/
def to_datetime_coerce (v : JVal) : JVal :=
  match v with
  | JVal.jstr s => if dateChars s ∧ s ≠ "" then JVal.jstr s else JVal.jnull
  | _ => JVal.jnull

/-- `drop_duplicates(subset=[id])`: keep each row whose key has not been
seen yet, preserving input order; `seen` is the set of keys already
kept. -/
def dedupByKey (key : α → JVal) (seen : List JVal) : List α → List α
  | [] => []
  | r :: rs =>
    if key r ∈ seen then dedupByKey key seen rs
    else r :: dedupByKey key (key r :: seen) rs

/-- The `release_date` column assignment of `transform_album_data`:
`pd.to_datetime` applied to one row's cell. -/
def albumConvert (r : AlbumRec) : AlbumRec :=
  { r with release_date := to_datetime_coerce r.release_date }

/-- The `added_at` column assignment of `transform_song_data`. -/
def songConvert (r : SongRec) : SongRec :=
  { r with added_at := to_datetime_coerce r.added_at }

/-- `TransformData.transform_album_data` (spotify_transformer.py lines
44-55): builds the DataFrame, drops duplicate ids keeping the first
occurrence, coerces `release_date`; any exception (a `None` input makes
`drop_duplicates` raise `KeyError` on the missing `id` column, as does
the empty column-less frame from an empty list) is caught and an empty
DataFrame returned. -/
def transform_album_data (album_data : Option (List AlbumRec)) : List AlbumRec :=
  match album_data with
  | Option.none => []
  | some [] => []
  | some rows => (dedupByKey AlbumRec.id [] rows).map albumConvert

/-- `TransformData.transform_artist_data` (spotify_transformer.py lines
72-81): DataFrame construction plus id-deduplication only; the same
exception path yields an empty DataFrame for `None` or empty input. -/
def transform_artist_data (artist_data : Option (List ArtistRec)) : List ArtistRec :=
  match artist_data with
  | Option.none => []
  | some [] => []
  | some rows => dedupByKey ArtistRec.id [] rows

/-- `TransformData.transform_song_data` (spotify_transformer.py lines
103-113): id-deduplication then `added_at` coercion, with the same
empty-DataFrame exception path. -/
def transform_song_data (song_data : Option (List SongRec)) : List SongRec :=
  match song_data with
  | Option.none => []
  | some [] => []
  | some rows => (dedupByKey SongRec.id [] rows).map songConvert

/-! ## CSV serialization (`DataFrame.to_csv(..., index=False)`)

The column names of the frames built from the extractor dicts are the
dict literals' key insertion order; `index=False` means no leading index
column, so the header row is exactly those names. -/

/-- Columns of the album DataFrame, in dict-literal key order. -/
def albumColumns : List String := ["id", "name", "release_date", "total_tracks", "url"]

/-- Columns of the artist DataFrame, in dict-literal key order. -/
def artistColumns : List String := ["id", "name", "url"]

/-- Columns of the song DataFrame, in dict-literal key order; the source
spells the final column `artist_ids`. -/
def songColumns : List String :=
  ["id", "name", "added_at", "duration_ms", "popularity", "url", "album_id", "artist_ids"]

/-- Standard CSV escaping: quote a field containing a comma, a quote or
a newline, doubling embedded quotes. -/
def csvEscape (s : String) : String :=
  if s.toList.any fun c => c = ',' || c = '"' || c = '\n' then
    "\"" ++ String.join (s.toList.map fun c =>
      if c = '"' then "\"\"" else String.singleton c) ++ "\""
  else s

/-- Render one cell the way `to_csv` does: strings verbatim (escaped),
integers in decimal, missing values (`NaN`/`NaT`) as the empty cell. -/
def csvCell (v : JVal) : String :=
  match v with
  | JVal.jstr s => csvEscape s
  | JVal.jint n => toString n
  | _ => ""

/-- Join cells of one CSV row with commas. -/
def csvLine (cells : List String) : String := String.intercalate "," cells

/-- Lines of `album_df.to_csv(index=False)`: header row, then one row
per record in frame order. -/
def albumCsvLines (df : List AlbumRec) : List String :=
  csvLine albumColumns ::
    df.map fun r => csvLine [csvCell r.id, csvCell r.name,
      csvCell r.release_date, csvCell r.total_tracks, csvCell r.url]

/-- Lines of `artist_df.to_csv(index=False)`. -/
def artistCsvLines (df : List ArtistRec) : List String :=
  csvLine artistColumns ::
    df.map fun r => csvLine [csvCell r.id, csvCell r.name, csvCell r.url]

/-- Lines of `song_df.to_csv(index=False)`. -/
def songCsvLines (df : List SongRec) : List String :=
  csvLine songColumns ::
    df.map fun r => csvLine [csvCell r.id, csvCell r.name,
      csvCell r.added_at, csvCell r.duration_ms, csvCell r.popularity,
      csvCell r.url, csvCell r.album_id, csvCell r.artist_ids]

/-- Full text of a written CSV file. -/
def csvText (lines : List String) : String :=
  String.intercalate "\n" lines ++ "\n"

/-! ## Loaders (src/main/loaders/local_loader.py, s3_loader.py)

Side effects are made explicit: the local filesystem is a list of
created directories plus written files, the object store a list of put
objects. Each `_validate_...` helper returns the updated state together
with `Except.ok` on success, or the UNCHANGED state with `Except.error`
when the `ValueError` precondition fires (the validation is the first
statement of both helpers, before any side effect). -/

/-- The local filesystem visible to `LoadDataLocal`. -/
structure LocalFS where
  dirs : List String
  files : List (String × String)
deriving DecidableEq

/-- `os.path.dirname`: everything before the final slash. -/
def dirname (p : String) : String :=
  let parts := p.splitOn "/"
  if parts.length ≤ 1 then "" else String.intercalate "/" parts.dropLast

/-- `os.makedirs(dirname(filepath) or ".", exist_ok=True)`. -/
def makedirsTarget (filepath : String) : String :=
  if dirname filepath = "" then "." else dirname filepath

/-- `LoadDataLocal._validate_and_save` (local_loader.py lines 26-40):
raise `ValueError` if the DataFrame is `None` or empty, before any side
effect; otherwise create the directory and write the CSV. The DataFrame
is passed as its row list (`Option.none` models a `None` attribute) plus
the serializer fixed by its entity type. -/
def validate_and_save (df : Option (List α)) (toLines : List α → List String)
    (filepath : String) (fs : LocalFS) : LocalFS × Except String Unit :=
  match df with
  | Option.none => (fs, Except.error "ValueError: no data to save")
  | some [] => (fs, Except.error "ValueError: no data to save")
  | some rows =>
    ({ dirs := makedirsTarget filepath :: fs.dirs,
       files := (filepath, csvText (toLines rows)) :: fs.files },
     Except.ok ())

/-- `LoadDataLocal.load_album_data` (local_loader.py lines 42-44). -/
def load_album_data (album_df : Option (List AlbumRec)) (filepath : String)
    (fs : LocalFS) : LocalFS × Except String Unit :=
  validate_and_save album_df albumCsvLines filepath fs

/-- `LoadDataLocal.load_artist_data` (local_loader.py lines 46-48). -/
def load_artist_data (artist_df : Option (List ArtistRec)) (filepath : String)
    (fs : LocalFS) : LocalFS × Except String Unit :=
  validate_and_save artist_df artistCsvLines filepath fs

/-- `LoadDataLocal.load_song_data` (local_loader.py lines 50-52). -/
def load_song_data (song_df : Option (List SongRec)) (filepath : String)
    (fs : LocalFS) : LocalFS × Except String Unit :=
  validate_and_save song_df songCsvLines filepath fs

/-- One object put into the S3 bucket. -/
structure S3Object where
  bucket : String
  key : String
  body : String
  contentType : String
deriving DecidableEq

/-- `LoadDataS3._validate_and_upload` (s3_loader.py lines 31-71): raise
`ValueError` if the DataFrame is `None` or empty before building the CSV
buffer or touching the client; otherwise `put_object` with content type
`text/csv` and return the `s3://bucket/key` URI. -/
def validate_and_upload (df : Option (List α)) (toLines : List α → List String)
    (bucket_name s3_key : String) (store : List S3Object) :
    List S3Object × Except String String :=
  match df with
  | Option.none => (store, Except.error "ValueError: no data to upload")
  | some [] => (store, Except.error "ValueError: no data to upload")
  | some rows =>
    (⟨bucket_name, s3_key, csvText (toLines rows), "text/csv"⟩ :: store,
     Except.ok ("s3://" ++ bucket_name ++ "/" ++ s3_key))

/-! ## Connectors (src/main/connectors/spotify_connector.py,
s3_connector.py, mysql_connector.py)

All three classes implement the identical pattern: a class attribute
`_instance` initialised to `None`; `__init__` raises
`Exception("Use get_instance() instead of creating a new object")` when
`_instance` is already set, and otherwise constructs the object WITHOUT
assigning `_instance`; the classmethod `get_instance` constructs and
registers an instance when `_instance` is `None` and returns the
registered one otherwise. The class-level state and the bag of
constructed (live) instances are explicit; instances are named by a
fresh counter. -/

/-- Class-level state of one connector class: the `_instance` slot and
every instance the constructor has produced so far. -/
structure ConnState where
  reg : Option Nat
  live : List Nat
  nextId : Nat
deriving DecidableEq

/-- Connector class state at process start: `_instance = None`, nothing
constructed. -/
def connState0 : ConnState := ⟨Option.none, [], 0⟩

/-- `__init__` of `SpotifyConnection` / `S3Connection` /
`MySqlConnection` (identical in the three files): raises when
`_instance` is already set, otherwise constructs a fresh live instance;
note it does NOT register the new instance in `_instance`. -/
def conn_init (s : ConnState) : Except String (Nat × ConnState) :=
  match s.reg with
  | some _ => Except.error "Use get_instance() instead of creating a new object"
  | Option.none =>
    Except.ok (s.nextId, { reg := s.reg, live := s.live ++ [s.nextId], nextId := s.nextId + 1 })

/-- `get_instance` classmethod (identical in the three connector files):
construct and register on first use, return the registered instance
thereafter. -/
def get_instance (s : ConnState) : Except String (Nat × ConnState) :=
  match s.reg with
  | some i => Except.ok (i, s)
  | Option.none =>
    match conn_init s with
    | Except.error e => Except.error e
    | Except.ok (i, s') => Except.ok (i, { s' with reg := some i })

/-! ## Orchestrator (src/main/main.py)

`main(data_load)` fetches the playlist document, runs the three
extractions, the three transforms, routes on `data_load == "s3"` and
writes. Python binds method-call arguments at call time: a call that
supplies fewer positional arguments than the callee's required
parameters raises `TypeError` at the call site. The call at main.py
line 30, `data_extractor.extract_song_data()`, supplies 0 of the 1
required positional parameter of
`DataExtract.extract_song_data(self, playlist_data)`. -/

/-- Required positional parameters (beyond `self`) of
`DataExtract.extract_song_data` (spotify_extractor.py line 113). -/
def songCallRequired : Nat := 1

/-- Positional arguments supplied at the call site main.py line 30. -/
def songCallSupplied : Nat := 0

deriving instance DecidableEq for Except

/-- Outcome of one `main` run: the stage labels that completed, and
either normal completion or the uncaught exception that ended the run. -/
structure MainTrace where
  stages : List String
  outcome : Except String Unit
deriving DecidableEq

/-- `main` (main.py lines 10-54), after the fetch: the fetched document
and the config-derived values (playlist id, bucket, upload timestamp)
are parameters, the local filesystem and object store are explicit
state. Extraction of albums and artists happens first; the song
extraction call raises `TypeError` whenever fewer positional arguments
are supplied than required, aborting the run uncaught. The remainder
mirrors main.py lines 33-54: transforms, route on `data_load == "s3"`,
sequential writes with the first write failure aborting. -/
def main_run (playlist_id : String) (playlist_data : JVal) (data_load : String)
    (bucket_name ts : String) (fs : LocalFS) (store : List S3Object) : MainTrace :=
  let album_data := extract_album_data playlist_data
  let artist_data := extract_artist_data playlist_data
  if songCallSupplied < songCallRequired then
    { stages := ["fetch", "extract_album", "extract_artist"],
      outcome := Except.error
        "TypeError: extract_song_data() missing 1 required positional argument: playlist_data" }
  else
    let song_data := extract_song_data playlist_data playlist_data
    let album_df := transform_album_data album_data
    let artist_df := transform_artist_data artist_data
    let song_df := transform_song_data song_data
    let done := ["fetch", "extract_album", "extract_artist", "extract_song",
                 "transform", "route", "write"]
    let failed := fun (e : String) => MainTrace.mk
      ["fetch", "extract_album", "extract_artist", "extract_song", "transform", "route"]
      (Except.error e)
    if data_load = "s3" then
      let (store1, r1) := validate_and_upload (some album_df) albumCsvLines
        bucket_name ("processed-data/spotify/albums/albums_" ++ ts ++ ".csv") store
      match r1 with
      | Except.error e => failed e
      | Except.ok _ =>
        let (store2, r2) := validate_and_upload (some artist_df) artistCsvLines
          bucket_name ("processed-data/spotify/artists/artists_" ++ ts ++ ".csv") store1
        match r2 with
        | Except.error e => failed e
        | Except.ok _ =>
          let (_, r3) := validate_and_upload (some song_df) songCsvLines
            bucket_name ("processed-data/spotify/songs/songs_" ++ ts ++ ".csv") store2
          match r3 with
          | Except.error e => failed e
          | Except.ok _ => { stages := done, outcome := Except.ok () }
    else
      let (fs1, r1) := load_album_data (some album_df)
        ("data/album_data_" ++ playlist_id ++ ".csv") fs
      match r1 with
      | Except.error e => failed e
      | Except.ok _ =>
        let (fs2, r2) := load_artist_data (some artist_df)
          ("data/artist_data_" ++ playlist_id ++ ".csv") fs1
        match r2 with
        | Except.error e => failed e
        | Except.ok _ =>
          let (_, r3) := load_song_data (some song_df)
            ("data/song_data_" ++ playlist_id ++ ".csv") fs2
          match r3 with
          | Except.error e => failed e
          | Except.ok _ => { stages := done, outcome := Except.ok () }

/-! ## Concrete fixtures

Small concrete documents used by the counterexamples and witnesses. -/

/-- A fully well-formed artist entry. -/
def artistA : JVal :=
  JVal.jdict [("id", JVal.jstr "ar1"), ("name", JVal.jstr "Artist One"),
    ("external_urls", JVal.jdict [("spotify", JVal.jstr "https://sp/ar1")])]

/-- A fully well-formed album entry with one album-artist. -/
def albumA : JVal :=
  JVal.jdict [("id", JVal.jstr "al1"), ("name", JVal.jstr "Album One"),
    ("release_date", JVal.jstr "2020-01-01"), ("total_tracks", JVal.jint 10),
    ("external_urls", JVal.jdict [("spotify", JVal.jstr "https://sp/al1")]),
    ("artists", JVal.jlist [artistA])]

/-- A fully well-formed track. -/
def trackA : JVal :=
  JVal.jdict [("id", JVal.jstr "t1"), ("name", JVal.jstr "Song One"),
    ("duration_ms", JVal.jint 200000), ("popularity", JVal.jint 55),
    ("external_urls", JVal.jdict [("spotify", JVal.jstr "https://sp/t1")]),
    ("album", albumA), ("artists", JVal.jlist [artistA])]

/-- A fully well-formed playlist item. -/
def goodItem : JVal :=
  JVal.jdict [("added_at", JVal.jstr "2021-05-05T00:00:00Z"), ("track", trackA)]

/-- The album record `goodItem` yields. -/
def goodAlbumRec : AlbumRec :=
  ⟨JVal.jstr "al1", JVal.jstr "Album One", JVal.jstr "2020-01-01",
   JVal.jint 10, JVal.jstr "https://sp/al1"⟩

/-- The song record `goodItem` yields. -/
def goodSongRec : SongRec :=
  ⟨JVal.jstr "t1", JVal.jstr "Song One", JVal.jstr "2021-05-05T00:00:00Z",
   JVal.jint 200000, JVal.jint 55, JVal.jstr "https://sp/t1",
   JVal.jstr "al1", JVal.jstr "ar1"⟩

/-- A malformed item: its track is a dict carrying only an `id`, so
every nested access past `track` raises in all three extractors. -/
def badItem : JVal :=
  JVal.jdict [("added_at", JVal.jstr "2021-05-06T00:00:00Z"),
    ("track", JVal.jdict [("id", JVal.jstr "t9")])]

/-- An item whose track is the explicit `None` marker. -/
def nullTrackItem : JVal :=
  JVal.jdict [("added_at", JVal.jstr "2021-05-07T00:00:00Z"), ("track", JVal.jnull)]

/-- An album entry whose artist list is empty. -/
def emptyArtistsAlbum : JVal :=
  JVal.jdict [("id", JVal.jstr "al2"), ("name", JVal.jstr "Album Two"),
    ("release_date", JVal.jstr "2019-03-03"), ("total_tracks", JVal.jint 8),
    ("external_urls", JVal.jdict [("spotify", JVal.jstr "https://sp/al2")]),
    ("artists", JVal.jlist [])]

/-- A track identical to `trackA` except its album's artist list is
empty; every song field is present, only `album.artists[0]` raises. -/
def emptyArtistsTrack : JVal :=
  JVal.jdict [("id", JVal.jstr "t2"), ("name", JVal.jstr "Song Two"),
    ("duration_ms", JVal.jint 180000), ("popularity", JVal.jint 40),
    ("external_urls", JVal.jdict [("spotify", JVal.jstr "https://sp/t2")]),
    ("album", emptyArtistsAlbum),
    ("artists", JVal.jlist [artistA])]

/-- An item whose track's album has zero album-artists. -/
def emptyArtistsItem : JVal :=
  JVal.jdict [("added_at", JVal.jstr "2021-05-08T00:00:00Z"),
    ("track", emptyArtistsTrack)]

/-! ## Helper lemmas -/

/-- An exception while processing any one item aborts the whole
`extractLoop` batch. -/
theorem extractLoop_none_of_mem {itemF : JVal → Option (Option α)} {d : JVal} :
    ∀ {items : List JVal}, d ∈ items → itemF d = Option.none →
      extractLoop itemF items = Option.none := by
  intro items hd hfail
  induction items with
  | nil => cases hd
  | cons x rest ih =>
    rcases List.mem_cons.mp hd with rfl | hmem
    · simp [extractLoop, hfail]
    · cases hx : itemF x with
      | none => simp [extractLoop, hx]
      | some r => simp [extractLoop, hx, ih hmem]

/-- An exception while processing any one item aborts the whole
`artistBatch` batch. -/
theorem artistBatch_none_of_mem {d : JVal} :
    ∀ {items : List JVal}, d ∈ items → artistItem d = Option.none →
      artistBatch items = Option.none := by
  intro items hd hfail
  induction items with
  | nil => cases hd
  | cons x rest ih =>
    rcases List.mem_cons.mp hd with rfl | hmem
    · simp [artistBatch, hfail]
    · cases hx : artistItem x with
      | none => simp [artistBatch, hx]
      | some r => simp [artistBatch, hx, ih hmem]

/-- An item the loop body skips (`some Option.none`) contributes nothing
to `extractLoop` and does not disturb the remaining items. -/
theorem extractLoop_skip {itemF : JVal → Option (Option α)} {d : JVal}
    (hskip : itemF d = some Option.none) :
    ∀ (pre post : List JVal),
      extractLoop itemF (pre ++ d :: post) = extractLoop itemF (pre ++ post) := by
  intro pre post
  induction pre with
  | nil =>
    simp only [List.nil_append, extractLoop, hskip]
    cases extractLoop itemF post <;> rfl
  | cons x xs ih =>
    simp only [List.cons_append, extractLoop, List.append_eq, ih]

/-- An item skipped by `artistItem` contributes nothing to
`artistBatch`. -/
theorem artistBatch_skip {d : JVal}
    (hskip : artistItem d = some Option.none) :
    ∀ (pre post : List JVal),
      artistBatch (pre ++ d :: post) = artistBatch (pre ++ post) := by
  intro pre post
  induction pre with
  | nil =>
    simp only [List.nil_append, artistBatch, hskip]
    cases artistBatch post <;> rfl
  | cons x xs ih =>
    simp only [List.cons_append, artistBatch, List.append_eq, ih]

/-- A `None` track makes `albumItem` skip. -/
theorem albumItem_null_track {d : JVal} (h : d.get "track" = some JVal.jnull) :
    albumItem d = some Option.none := by
  simp [albumItem, h, isNone]

/-- A `None` track makes `artistItem` skip. -/
theorem artistItem_null_track {d : JVal} (h : d.get "track" = some JVal.jnull) :
    artistItem d = some Option.none := by
  simp [artistItem, h, isNone]

/-- A `None` track makes `songItem` skip. -/
theorem songItem_null_track {d : JVal} (h : d.get "track" = some JVal.jnull) :
    songItem d = some Option.none := by
  unfold songItem
  rw [h]
  rfl

/-- On a document built by `mkDoc`, `extract_album_data` runs the loop. -/
theorem extract_album_data_mkDoc (items : List JVal) :
    extract_album_data (mkDoc items) = extractLoop albumItem items := rfl

/-- On a document built by `mkDoc`, `extract_artist_data` runs the loop. -/
theorem extract_artist_data_mkDoc (items : List JVal) :
    extract_artist_data (mkDoc items) = artistBatch items := rfl

/-- On a document built by `mkDoc`, `extract_song_data` runs the loop. -/
theorem extract_song_data_mkDoc (items : List JVal) (x : JVal) :
    extract_song_data (mkDoc items) x = extractLoop songItem items := rfl

/-- A value that answers a successful key lookup is a dict, hence not the
`None` marker. -/
theorem isNone_false_of_get {t : JVal} {k : String} {v : JVal}
    (h : t.get k = some v) : isNone t = false := by
  cases t <;> simp [JVal.get] at h ⊢ <;> rfl

/-- An album with zero album-artists makes the album-side access chain
raise: `album['artists'][0]` is an `IndexError`. -/
theorem songAlbumFields_none_of_no_artists {t album : JVal}
    (ha : t.get "album" = some album)
    (hart : album.get "artists" = some (JVal.jlist [])) :
    songAlbumFields t = Option.none := by
  simp only [songAlbumFields, Option.bind_eq_bind, ha, Option.some_bind,
    Option.bind_eq_none]
  intro aid hid aX hX fa hfa
  rw [hart] at hX
  injection hX with he
  subst he
  simp [JVal.index] at hfa

/-- A present track whose album has zero album-artists makes the
`songItem` body raise (at `album.artists[0]` at the latest), which the
batch-level handler turns into a `None` return. -/
theorem songItem_none_of_no_artists {d t album : JVal}
    (ht : d.get "track" = some t) (ha : t.get "album" = some album)
    (hart : album.get "artists" = some (JVal.jlist [])) :
    songItem d = Option.none := by
  have hfalse : isNone t = false := isNone_false_of_get ha
  simp only [songItem, Option.bind_eq_bind, ht, Option.some_bind, hfalse,
    Bool.false_eq_true, if_false]
  cases hc : songFields t d <;>
    simp [hc, songAlbumFields_none_of_no_artists ha hart]

/-- The earliest element of `l` whose key equals `k` — the "first
occurrence" of the claim language. -/
def firstWithKey (key : α → JVal) (k : JVal) : List α → Option α
  | [] => Option.none
  | x :: xs => if key x = k then some x else firstWithKey key k xs

/-- Every row `dedupByKey` keeps has an unseen key, and is exactly the
first occurrence of that key in the input. -/
theorem dedupByKey_first {key : α → JVal} :
    ∀ (seen : List JVal) (l : List α) (r : α), r ∈ dedupByKey key seen l →
      key r ∉ seen ∧ firstWithKey key (key r) l = some r := by
  intro seen l
  induction l generalizing seen with
  | nil => intro r h; cases h
  | cons x xs ih =>
    intro r hr
    by_cases hx : key x ∈ seen
    · rw [dedupByKey, if_pos hx] at hr
      obtain ⟨hns, hf⟩ := ih seen r hr
      refine ⟨hns, ?_⟩
      rw [firstWithKey, if_neg ?_]
      · exact hf
      · intro he
        exact hns (he ▸ hx)
    · rw [dedupByKey, if_neg hx] at hr
      rcases List.mem_cons.mp hr with rfl | hr'
      · exact ⟨hx, by rw [firstWithKey, if_pos rfl]⟩
      · obtain ⟨hns, hf⟩ := ih (key x :: seen) r hr'
        have hxr : key r ≠ key x := fun he => hns (by simp [he])
        refine ⟨fun hin => hns (List.mem_cons_of_mem _ hin), ?_⟩
        rw [firstWithKey, if_neg fun he => hxr he.symm]
        exact hf

/-- The keys of the rows `dedupByKey` keeps are pairwise distinct. -/
theorem dedupByKey_nodup {key : α → JVal} :
    ∀ (seen : List JVal) (l : List α), ((dedupByKey key seen l).map key).Nodup := by
  intro seen l
  induction l generalizing seen with
  | nil => simp [dedupByKey]
  | cons x xs ih =>
    by_cases hx : key x ∈ seen
    · rw [dedupByKey, if_pos hx]
      exact ih seen
    · rw [dedupByKey, if_neg hx]
      simp only [List.map_cons, List.nodup_cons]
      refine ⟨?_, ih _⟩
      intro hmem
      obtain ⟨r, hr, hkr⟩ := List.mem_map.mp hmem
      exact (dedupByKey_first (key x :: seen) xs r hr).1 (by simp [hkr])

/-- `dedupByKey` keeps rows in their original input order. -/
theorem dedupByKey_sublist {key : α → JVal} :
    ∀ (seen : List JVal) (l : List α), (dedupByKey key seen l).Sublist l := by
  intro seen l
  induction l generalizing seen with
  | nil => simp [dedupByKey]
  | cons x xs ih =>
    by_cases hx : key x ∈ seen
    · rw [dedupByKey, if_pos hx]
      exact (ih seen).trans (List.sublist_cons_self x xs)
    · rw [dedupByKey, if_neg hx]
      exact (ih _).cons₂ x

/-- First-occurrence and order-preservation facts for one deduplicated,
cellwise-converted table, for a conversion that does not touch the key. -/
theorem dedupMap_props {β : Type} (key : β → JVal) (conv : β → β)
    (hconv : ∀ r, key (conv r) = key r) (rows : List β) :
    (((dedupByKey key [] rows).map conv).map key).Nodup ∧
    (((dedupByKey key [] rows).map conv).map key).Sublist (rows.map key) ∧
    ∀ r ∈ (dedupByKey key [] rows).map conv, ∃ s,
      firstWithKey key (key r) rows = some s ∧ r = conv s := by
  have hcomp : key ∘ conv = key := funext hconv
  refine ⟨?_, ?_, ?_⟩
  · rw [List.map_map, hcomp]
    exact dedupByKey_nodup [] rows
  · rw [List.map_map, hcomp]
    exact (dedupByKey_sublist [] rows).map key
  · intro r hr
    obtain ⟨s, hs, rfl⟩ := List.mem_map.mp hr
    obtain ⟨-, hf⟩ := dedupByKey_first [] rows s hs
    refine ⟨s, ?_, rfl⟩
    rw [hconv]
    exact hf

/-- On a non-`None` input the album transform is exactly dedup followed
by the date coercion (the empty-input exception path yields the same
empty table). -/
theorem transform_album_eq (rows : List AlbumRec) :
    transform_album_data (some rows) = (dedupByKey AlbumRec.id [] rows).map albumConvert := by
  cases rows <;> rfl

/-- On a non-`None` input the artist transform is exactly dedup. -/
theorem transform_artist_eq (rows : List ArtistRec) :
    transform_artist_data (some rows) = dedupByKey ArtistRec.id [] rows := by
  cases rows <;> rfl

/-- On a non-`None` input the song transform is exactly dedup followed
by the timestamp coercion. -/
theorem transform_song_eq (rows : List SongRec) :
    transform_song_data (some rows) = (dedupByKey SongRec.id [] rows).map songConvert := by
  cases rows <;> rfl

/-! ## Claim C4 fixtures: two records sharing an id with conflicting
field values, per entity. -/

/-- First album raw record of a conflicting-id pair. -/
def dupAlbum1 : AlbumRec :=
  ⟨JVal.jstr "alX", JVal.jstr "First Name", JVal.jstr "2020-01-01",
   JVal.jint 9, JVal.jstr "https://sp/alX"⟩

/-- Second album raw record with the same id but different fields. -/
def dupAlbum2 : AlbumRec :=
  ⟨JVal.jstr "alX", JVal.jstr "Second Name", JVal.jstr "2021-02-02",
   JVal.jint 7, JVal.jstr "https://sp/alX2"⟩

/-- First artist raw record of a conflicting-id pair. -/
def dupArtist1 : ArtistRec :=
  ⟨JVal.jstr "arX", JVal.jstr "Name A", JVal.jstr "https://sp/arX"⟩

/-- Second artist raw record with the same id but different fields. -/
def dupArtist2 : ArtistRec :=
  ⟨JVal.jstr "arX", JVal.jstr "Name B", JVal.jstr "https://sp/arX2"⟩

/-- First song raw record of a conflicting-id pair. -/
def dupSong1 : SongRec :=
  ⟨JVal.jstr "sX", JVal.jstr "Take One", JVal.jstr "2021-01-01T00:00:00Z",
   JVal.jint 100, JVal.jint 10, JVal.jstr "https://sp/sX",
   JVal.jstr "alX", JVal.jstr "arX"⟩

/-- Second song raw record with the same id but different fields. -/
def dupSong2 : SongRec :=
  ⟨JVal.jstr "sX", JVal.jstr "Take Two", JVal.jstr "2022-02-02T00:00:00Z",
   JVal.jint 200, JVal.jint 20, JVal.jstr "https://sp/sX2",
   JVal.jstr "alX", JVal.jstr "arX"⟩

/-! ## The claims -/

/-- C1 (counterexample): one malformed item (its track lacks the album
and artist substructure) makes all three extraction methods return
Python `None` for the whole batch, although a well-formed item is also
present — alone, that item extracts fine. The claim that the malformed
item is skipped and the rest of the batch survives is therefore false. -/
theorem extract_malformed_aborts_batch_cex :
    extract_album_data (mkDoc [badItem, goodItem]) = Option.none ∧
    extract_artist_data (mkDoc [badItem, goodItem]) = Option.none ∧
    extract_song_data (mkDoc [badItem, goodItem]) (mkDoc [badItem, goodItem]) = Option.none ∧
    extract_album_data (mkDoc [goodItem]) = some [goodAlbumRec] ∧
    extract_song_data (mkDoc [goodItem]) (mkDoc [goodItem]) = some [goodSongRec] := by
  decide

/-- C1 (amended): a malformed item does not merely lose its own
contribution — because the `try/except` wraps the whole loop, any item
whose processing raises makes the extraction method return `None` for
the entire batch, dropping every well-formed item's record as well. -/
theorem extract_malformed_aborts_batch (items : List JVal) (d x : JVal)
    (hd : d ∈ items) :
    (albumItem d = Option.none → extract_album_data (mkDoc items) = Option.none) ∧
    (artistItem d = Option.none → extract_artist_data (mkDoc items) = Option.none) ∧
    (songItem d = Option.none → extract_song_data (mkDoc items) x = Option.none) := by
  refine ⟨fun h => ?_, fun h => ?_, fun h => ?_⟩
  · rw [extract_album_data_mkDoc]
    exact extractLoop_none_of_mem hd h
  · rw [extract_artist_data_mkDoc]
    exact artistBatch_none_of_mem hd h
  · rw [extract_song_data_mkDoc]
    exact extractLoop_none_of_mem hd h

/-- C1 witness: the amended theorem applied to the two-item document. -/
theorem extract_malformed_aborts_batch_witness :
    extract_album_data (mkDoc [badItem, goodItem]) = Option.none ∧
    extract_artist_data (mkDoc [badItem, goodItem]) = Option.none ∧
    extract_song_data (mkDoc [badItem, goodItem]) JVal.jnull = Option.none :=
  ⟨(extract_malformed_aborts_batch [badItem, goodItem] badItem JVal.jnull (by decide)).1
      (by decide),
   (extract_malformed_aborts_batch [badItem, goodItem] badItem JVal.jnull (by decide)).2.1
      (by decide),
   (extract_malformed_aborts_batch [badItem, goodItem] badItem JVal.jnull (by decide)).2.2
      (by decide)⟩

/-- C2 (counterexample): an item whose track is present but whose
album's artist list is empty does not yield a song record with an
unresolved artist id — `extract_song_data` returns Python `None` for the
whole batch, dropping the other well-formed item too (which, alone,
extracts fine). -/
theorem song_empty_album_artists_cex :
    extract_song_data (mkDoc [emptyArtistsItem, goodItem])
      (mkDoc [emptyArtistsItem, goodItem]) = Option.none ∧
    songItem goodItem = some (some goodSongRec) ∧
    extract_song_data (mkDoc [goodItem]) (mkDoc [goodItem]) = some [goodSongRec] := by
  decide

/-- C2 (amended): an item with a present track whose album has zero
album-artists raises `IndexError` at `album['artists'][0]`, and the
batch-level handler turns that into a `None` return of
`extract_song_data` for the whole document: no record for that item and
none for any other item either. -/
theorem song_empty_album_artists_aborts (items : List JVal) (d t album x : JVal)
    (hd : d ∈ items) (ht : d.get "track" = some t)
    (ha : t.get "album" = some album)
    (hart : album.get "artists" = some (JVal.jlist [])) :
    extract_song_data (mkDoc items) x = Option.none := by
  rw [extract_song_data_mkDoc]
  exact extractLoop_none_of_mem hd (songItem_none_of_no_artists ht ha hart)

/-- C2 witness: the amended theorem applied to the two-item document. -/
theorem song_empty_album_artists_aborts_witness :
    extract_song_data (mkDoc [emptyArtistsItem, goodItem]) JVal.jnull = Option.none :=
  song_empty_album_artists_aborts [emptyArtistsItem, goodItem] emptyArtistsItem
    emptyArtistsTrack emptyArtistsAlbum JVal.jnull
    (by decide) (by decide) (by decide) (by decide)

/-- C3 (code bug): the call `data_extractor.extract_song_data()` at
main.py line 30 supplies none of the one required positional argument of
`DataExtract.extract_song_data(self, playlist_data)`, so every run of
`main` — for every fetched document and every run mode — raises
`TypeError` at the song-extraction step and never reaches the transform,
route or write stages. -/
theorem main_song_call_typeerror (playlist_id : String) (pd : JVal)
    (mode bucket ts : String) (fs : LocalFS) (store : List S3Object) :
    (main_run playlist_id pd mode bucket ts fs store).outcome =
      Except.error
        "TypeError: extract_song_data() missing 1 required positional argument: playlist_data" ∧
    (main_run playlist_id pd mode bucket ts fs store).stages =
      ["fetch", "extract_album", "extract_artist"] :=
  ⟨rfl, rfl⟩

/-- C4: each transform deduplicates by id keeping the first occurrence
in input order. The output ids are pairwise distinct, they appear in
input order, and every output row is (the cellwise date-coerced copy of)
the earliest input row bearing its id. -/
theorem transform_dedup_stable (albums : List AlbumRec) (artists : List ArtistRec)
    (songs : List SongRec) :
    (((transform_album_data (some albums)).map AlbumRec.id).Nodup ∧
      ((transform_album_data (some albums)).map AlbumRec.id).Sublist
        (albums.map AlbumRec.id) ∧
      ∀ r ∈ transform_album_data (some albums), ∃ s,
        firstWithKey AlbumRec.id (AlbumRec.id r) albums = some s ∧ r = albumConvert s) ∧
    (((transform_artist_data (some artists)).map ArtistRec.id).Nodup ∧
      ((transform_artist_data (some artists)).map ArtistRec.id).Sublist
        (artists.map ArtistRec.id) ∧
      ∀ r ∈ transform_artist_data (some artists),
        firstWithKey ArtistRec.id (ArtistRec.id r) artists = some r) ∧
    (((transform_song_data (some songs)).map SongRec.id).Nodup ∧
      ((transform_song_data (some songs)).map SongRec.id).Sublist
        (songs.map SongRec.id) ∧
      ∀ r ∈ transform_song_data (some songs), ∃ s,
        firstWithKey SongRec.id (SongRec.id r) songs = some s ∧ r = songConvert s) := by
  refine ⟨?_, ?_, ?_⟩
  · rw [transform_album_eq]
    exact dedupMap_props AlbumRec.id albumConvert (fun r => rfl) albums
  · rw [transform_artist_eq]
    exact ⟨dedupByKey_nodup [] artists,
      (dedupByKey_sublist [] artists).map ArtistRec.id,
      fun r hr => (dedupByKey_first [] artists r hr).2⟩
  · rw [transform_song_eq]
    exact dedupMap_props SongRec.id songConvert (fun r => rfl) songs

/-- C4 witness: the stability theorem applied to conflicting-id pairs —
in each table the surviving row is the coerced first occurrence. -/
theorem transform_dedup_stable_witness :
    ((transform_album_data (some [dupAlbum1, dupAlbum2])).map AlbumRec.id).Nodup ∧
    (∃ s, firstWithKey AlbumRec.id (AlbumRec.id (albumConvert dupAlbum1))
        [dupAlbum1, dupAlbum2] = some s ∧ albumConvert dupAlbum1 = albumConvert s) ∧
    firstWithKey ArtistRec.id (ArtistRec.id dupArtist1) [dupArtist1, dupArtist2] =
      some dupArtist1 ∧
    (∃ s, firstWithKey SongRec.id (SongRec.id (songConvert dupSong1))
        [dupSong1, dupSong2] = some s ∧ songConvert dupSong1 = songConvert s) :=
  ⟨(transform_dedup_stable [dupAlbum1, dupAlbum2] [dupArtist1, dupArtist2]
      [dupSong1, dupSong2]).1.1,
   (transform_dedup_stable [dupAlbum1, dupAlbum2] [dupArtist1, dupArtist2]
      [dupSong1, dupSong2]).1.2.2 (albumConvert dupAlbum1) (by decide),
   (transform_dedup_stable [dupAlbum1, dupAlbum2] [dupArtist1, dupArtist2]
      [dupSong1, dupSong2]).2.1.2.2 dupArtist1 (by decide),
   (transform_dedup_stable [dupAlbum1, dupAlbum2] [dupArtist1, dupArtist2]
      [dupSong1, dupSong2]).2.2.2.2 (songConvert dupSong1) (by decide)⟩

/-- C5: an item whose track is the explicit `None` marker contributes
zero records to all three extracted lists and does not abort the batch:
each extraction result over a document containing the item equals the
result over the same document without it. -/
theorem null_track_contributes_nothing (pre post : List JVal) (d x : JVal)
    (hd : d.get "track" = some JVal.jnull) :
    extract_album_data (mkDoc (pre ++ d :: post)) =
      extract_album_data (mkDoc (pre ++ post)) ∧
    extract_artist_data (mkDoc (pre ++ d :: post)) =
      extract_artist_data (mkDoc (pre ++ post)) ∧
    extract_song_data (mkDoc (pre ++ d :: post)) x =
      extract_song_data (mkDoc (pre ++ post)) x := by
  refine ⟨?_, ?_, ?_⟩
  · rw [extract_album_data_mkDoc, extract_album_data_mkDoc]
    exact extractLoop_skip (albumItem_null_track hd) pre post
  · rw [extract_artist_data_mkDoc, extract_artist_data_mkDoc]
    exact artistBatch_skip (artistItem_null_track hd) pre post
  · rw [extract_song_data_mkDoc, extract_song_data_mkDoc]
    exact extractLoop_skip (songItem_null_track hd) pre post

/-- C5 witness: inserting a `None`-track item after a well-formed one
changes none of the three extraction results. -/
theorem null_track_contributes_nothing_witness :
    extract_album_data (mkDoc [goodItem, nullTrackItem]) =
      extract_album_data (mkDoc [goodItem]) ∧
    extract_artist_data (mkDoc [goodItem, nullTrackItem]) =
      extract_artist_data (mkDoc [goodItem]) ∧
    extract_song_data (mkDoc [goodItem, nullTrackItem]) JVal.jnull =
      extract_song_data (mkDoc [goodItem]) JVal.jnull :=
  null_track_contributes_nothing [goodItem] [] nullTrackItem JVal.jnull (by decide)

/-- C6: both sinks validate first — a `None` or empty record set makes
the local `_validate_and_save` and the cloud `_validate_and_upload`
return the `ValueError` precondition failure with the filesystem and the
object store unchanged: nothing is written or uploaded. -/
theorem sink_rejects_empty_recordset {α : Type} (toLines : List α → List String)
    (fp bucket s3_key : String) (fs : LocalFS) (store : List S3Object) :
    validate_and_save (Option.none : Option (List α)) toLines fp fs =
      (fs, Except.error "ValueError: no data to save") ∧
    validate_and_save (some ([] : List α)) toLines fp fs =
      (fs, Except.error "ValueError: no data to save") ∧
    validate_and_upload (Option.none : Option (List α)) toLines bucket s3_key store =
      (store, Except.error "ValueError: no data to upload") ∧
    validate_and_upload (some ([] : List α)) toLines bucket s3_key store =
      (store, Except.error "ValueError: no data to upload") :=
  ⟨rfl, rfl, rfl, rfl⟩

/-- C7: every transform turns an empty input list, and the `None` input
on which DataFrame construction plus `drop_duplicates` fails, into the
empty table instead of propagating the exception. -/
theorem transform_failure_yields_empty_table :
    transform_album_data Option.none = [] ∧ transform_album_data (some []) = [] ∧
    transform_artist_data Option.none = [] ∧ transform_artist_data (some []) = [] ∧
    transform_song_data Option.none = [] ∧ transform_song_data (some []) = [] :=
  ⟨rfl, rfl, rfl, rfl, rfl, rfl⟩

/-- C8 (counterexample): the header row the sinks serialize for the song
table is `id,name,added_at,duration_ms,popularity,url,album_id,artist_ids`
— the final column is spelled `artist_ids` in the extractor's dict
literal, not the `artist_id` of the claimed field list. -/
theorem csv_song_header_cex :
    (songCsvLines [goodSongRec]).head? =
      some "id,name,added_at,duration_ms,popularity,url,album_id,artist_ids" ∧
    (songCsvLines [goodSongRec]).head? ≠
      some "id,name,added_at,duration_ms,popularity,url,album_id,artist_id" := by
  decide

/-- C8 (amended): for every record set the serialized CSV starts with a
header row holding exactly the frame's column names and no index column
and carries one data row per record; the album and artist headers match
the spec field names, while the song header ends in `artist_ids`. -/
theorem csv_headers_match_columns (adf : List AlbumRec) (rdf : List ArtistRec)
    (sdf : List SongRec) :
    (albumCsvLines adf).head? = some "id,name,release_date,total_tracks,url" ∧
    (artistCsvLines rdf).head? = some "id,name,url" ∧
    (songCsvLines sdf).head? =
      some "id,name,added_at,duration_ms,popularity,url,album_id,artist_ids" ∧
    (albumCsvLines adf).length = adf.length + 1 ∧
    (artistCsvLines rdf).length = rdf.length + 1 ∧
    (songCsvLines sdf).length = sdf.length + 1 := by
  refine ⟨rfl, rfl, rfl, ?_, ?_, ?_⟩ <;>
    simp [albumCsvLines, artistCsvLines, songCsvLines]

/-- C9 (counterexample): the constructor only raises when `_instance` is
set, but never sets it — so after one direct constructor call an
instance exists, and a second direct constructor call still succeeds,
silently creating a second live instance of the same backend class. -/
theorem conn_direct_construct_cex :
    conn_init connState0 = Except.ok (0, ⟨Option.none, [0], 1⟩) ∧
    conn_init ⟨Option.none, [0], 1⟩ = Except.ok (1, ⟨Option.none, [0, 1], 2⟩) :=
  ⟨rfl, rfl⟩

/-- C9 (amended): once an instance is registered in `_instance` (which
only `get_instance` does), every later `get_instance` call returns that
same instance unchanged and every direct constructor call raises; an
instance created by a direct constructor call is never registered and so
does not prevent further construction. -/
theorem conn_registered_singleton (s : ConnState) (i : Nat) (h : s.reg = some i) :
    get_instance s = Except.ok (i, s) ∧
    conn_init s = Except.error "Use get_instance() instead of creating a new object" := by
  constructor
  · simp [get_instance, h]
  · simp [conn_init, h]

/-- C9 witness: the amended theorem at the state `get_instance` reaches
from process start. -/
theorem conn_registered_singleton_witness :
    get_instance ⟨some 0, [0], 1⟩ = Except.ok (0, ⟨some 0, [0], 1⟩) ∧
    conn_init ⟨some 0, [0], 1⟩ =
      Except.error "Use get_instance() instead of creating a new object" :=
  conn_registered_singleton ⟨some 0, [0], 1⟩ 0 rfl

/-- C10: a transform handed `None` (the value an extraction method
yields when its batch fails) returns the empty table rather than
raising, and the sinks then reject that empty table with the
`ValueError` precondition failure — the extraction failure surfaces only
at the sink. -/
theorem transform_none_then_sink_rejects (fpa fpr fps bucket s3_key : String)
    (fs : LocalFS) (store : List S3Object) :
    transform_album_data Option.none = [] ∧
    transform_artist_data Option.none = [] ∧
    transform_song_data Option.none = [] ∧
    load_album_data (some (transform_album_data Option.none)) fpa fs =
      (fs, Except.error "ValueError: no data to save") ∧
    load_artist_data (some (transform_artist_data Option.none)) fpr fs =
      (fs, Except.error "ValueError: no data to save") ∧
    load_song_data (some (transform_song_data Option.none)) fps fs =
      (fs, Except.error "ValueError: no data to save") ∧
    validate_and_upload (some (transform_song_data Option.none)) songCsvLines
      bucket s3_key store = (store, Except.error "ValueError: no data to upload") :=
  ⟨rfl, rfl, rfl, rfl, rfl, rfl, rfl⟩
